import Mathlib

/-!
Verification development for the repository `MonikaBarget/Topics`, whose only
source file is the Jupyter notebook `notebooks/2-advanced, part 1.ipynb`.

The notebook is glue code over two external libraries (`cophi` for corpus
handling, `dariah` for LDA topic modeling).  We embed it at two levels:

1. A syntactic embedding: the notebook's code cells are transcribed, cell by
   cell and statement by statement, into a small Python AST (`Expr`, `Stmt`).
   Claims about ordering, configuration passing, and the absence of
   error-handling / process / concurrency constructs are settled over this
   concrete transcription.

2. A semantic embedding: an interpreter for the AST in which every foreign
   operation (library call, attribute access on a library object, operator
   application, subscripting) is a query to an arbitrary oracle that may
   fail.  This settles the error-propagation claim.

3. A model of the data-flow through the external `cophi`/`pandas` operations
   the notebook composes (`mfw`, `hapax`, `dtm`, `drop`, `fillna`, `astype`),
   written from those libraries' documented behaviour, for the claims about
   the filtered document-term matrix.
-/

namespace Topics

mutual

/-- Fragment of a Python f-string: literal text or an interpolated expression. -/
inductive FPart where
  | text : String → FPart
  | fexpr : Expr → FPart

/-- Python expressions, as far as the notebook needs them. -/
inductive Expr where
  | strLit : String → Expr
  | natLit : Nat → Expr
  | boolLit : Bool → Expr
  | ident : String → Expr
  /-- attribute access `obj.field` -/
  | dot : Expr → String → Expr
  /-- binary operator application `a op b` -/
  | binop : String → Expr → Expr → Expr
  /-- display subscription `obj[...]`; the list holds the expressions
      appearing in the subscript (the upper bounds of the slices used). -/
  | subscript : Expr → List Expr → Expr
  /-- call `f(args, kw=e, ...)` with positional and keyword arguments -/
  | call : Expr → List Expr → List (String × Expr) → Expr
  | fstring : List FPart → Expr

end

end Topics

namespace Topics

/-- Python statements, as far as the notebook needs them.  `tryExcept` is part
of the statement language (so that its absence from the notebook is a
statement about the transcription, not about the grammar). -/
inductive Stmt where
  | pyImport : String → Stmt
  | pyFromImport : String → List String → Stmt
  | assign : String → Expr → Stmt
  | exprStmt : Expr → Stmt
  | tryExcept : List Stmt → List Stmt → Stmt
  /-- IPython magic such as `%matplotlib inline` -/
  | magic : String → Stmt

/-- A code cell is a list of statements. -/
abbrev Cell := List Stmt

/-- The regex handed to `cophi.corpus` as `token_pattern`. -/
def tokenPatternStr : String :=
  "\\p\x7bLetter\x7d+\\p\x7bConnector_Punctuation\x7d?\\p\x7bLetter\x7d+"

/-- The path string handed to `dariah.core.LDA` as `mallet`. -/
def malletPathStr : String := "mallet-2.0.8/bin/mallet"

/-- Code cell 0: `from pathlib import Path` / `import dariah` / `import cophi`. -/
def cell0 : Cell :=
  [Stmt.pyFromImport "pathlib" ["Path"],
   Stmt.pyImport "dariah",
   Stmt.pyImport "cophi"]

/-- Code cell 1: `directory = Path("data", "british-fiction-corpus")`. -/
def cell1 : Cell :=
  [Stmt.assign "directory"
    (Expr.call (Expr.ident "Path")
      [Expr.strLit "data", Expr.strLit "british-fiction-corpus"] [])]

/-- Code cell 2: `corpus = cophi.corpus(directory, lowercase=True,
token_pattern=..., metadata=False)`. -/
def cell2 : Cell :=
  [Stmt.assign "corpus"
    (Expr.call (Expr.dot (Expr.ident "cophi") "corpus")
      [Expr.ident "directory"]
      [("lowercase", Expr.boolLit true),
       ("token_pattern", Expr.strLit tokenPatternStr),
       ("metadata", Expr.boolLit false)])]

/-- Code cell 3: `mfw = corpus.mfw(50)` / `mfw[:10]`. -/
def cell3 : Cell :=
  [Stmt.assign "mfw"
    (Expr.call (Expr.dot (Expr.ident "corpus") "mfw") [Expr.natLit 50] []),
   Stmt.exprStmt (Expr.subscript (Expr.ident "mfw") [Expr.natLit 10])]

/-- Code cell 4: `corpus.hapax[:10]`. -/
def cell4 : Cell :=
  [Stmt.exprStmt
    (Expr.subscript (Expr.dot (Expr.ident "corpus") "hapax") [Expr.natLit 10])]

/-- Code cell 5: `features = mfw + corpus.hapax` and the print of
`f"{len(features)} types will be removed from the corpus."`. -/
def cell5 : Cell :=
  [Stmt.assign "features"
    (Expr.binop "+" (Expr.ident "mfw") (Expr.dot (Expr.ident "corpus") "hapax")),
   Stmt.exprStmt
    (Expr.call (Expr.ident "print")
      [Expr.fstring
        [FPart.fexpr (Expr.call (Expr.ident "len") [Expr.ident "features"] []),
         FPart.text " types will be removed from the corpus."]] [])]

/-- Code cell 6: `dtm = corpus.drop(corpus.dtm, features).fillna(0).astype(int)`
/ `dtm.iloc[:, :5]`. -/
def cell6 : Cell :=
  [Stmt.assign "dtm"
    (Expr.call
      (Expr.dot
        (Expr.call
          (Expr.dot
            (Expr.call (Expr.dot (Expr.ident "corpus") "drop")
              [Expr.dot (Expr.ident "corpus") "dtm", Expr.ident "features"] [])
            "fillna")
          [Expr.natLit 0] [])
        "astype")
      [Expr.ident "int"] []),
   Stmt.exprStmt
    (Expr.subscript (Expr.dot (Expr.ident "dtm") "iloc") [Expr.natLit 5])]

/-- Code cell 7: `model = dariah.core.LDA(num_topics=10, num_iterations=1000,
mallet="mallet-2.0.8/bin/mallet")` / `model`. -/
def cell7 : Cell :=
  [Stmt.assign "model"
    (Expr.call (Expr.dot (Expr.dot (Expr.ident "dariah") "core") "LDA")
      []
      [("num_topics", Expr.natLit 10),
       ("num_iterations", Expr.natLit 1000),
       ("mallet", Expr.strLit malletPathStr)]),
   Stmt.exprStmt (Expr.ident "model")]

/-- Code cell 8: `model.fit(dtm)`. -/
def cell8 : Cell :=
  [Stmt.exprStmt
    (Expr.call (Expr.dot (Expr.ident "model") "fit") [Expr.ident "dtm"] [])]

/-- Code cell 9: `model.topics.iloc[:, :5]`. -/
def cell9 : Cell :=
  [Stmt.exprStmt
    (Expr.subscript (Expr.dot (Expr.dot (Expr.ident "model") "topics") "iloc")
      [Expr.natLit 5])]

/-- Code cell 10: `vis = dariah.core.Vis(model)` / `vis`. -/
def cell10 : Cell :=
  [Stmt.assign "vis"
    (Expr.call (Expr.dot (Expr.dot (Expr.ident "dariah") "core") "Vis")
      [Expr.ident "model"] []),
   Stmt.exprStmt (Expr.ident "vis")]

/-- Code cell 11: `%matplotlib inline` / `vis.topic_document()`. -/
def cell11 : Cell :=
  [Stmt.magic "matplotlib inline",
   Stmt.exprStmt
    (Expr.call (Expr.dot (Expr.ident "vis") "topic_document") [] [])]

/-- The notebook's code cells, in their order in the file. -/
def notebook : List Cell :=
  [cell0, cell1, cell2, cell3, cell4, cell5, cell6, cell7, cell8, cell9,
   cell10, cell11]

mutual

/-- All subterms of an expression (the expression itself included). -/
def exprSubs : Expr → List Expr
  | .strLit s => [Expr.strLit s]
  | .natLit n => [Expr.natLit n]
  | .boolLit b => [Expr.boolLit b]
  | .ident x => [Expr.ident x]
  | .dot e f => Expr.dot e f :: exprSubs e
  | .binop op a b => Expr.binop op a b :: (exprSubs a ++ exprSubs b)
  | .subscript e idx => Expr.subscript e idx :: (exprSubs e ++ exprListSubs idx)
  | .call f args kwargs =>
      Expr.call f args kwargs ::
        (exprSubs f ++ exprListSubs args ++ kwSubs kwargs)
  | .fstring parts => Expr.fstring parts :: fpartSubs parts

def exprListSubs : List Expr → List Expr
  | [] => []
  | e :: es => exprSubs e ++ exprListSubs es

def kwSubs : List (String × Expr) → List Expr
  | [] => []
  | kv :: rest => exprSubs kv.2 ++ kwSubs rest

def fpartSubs : List FPart → List Expr
  | [] => []
  | FPart.text _ :: rest => fpartSubs rest
  | FPart.fexpr e :: rest => exprSubs e ++ fpartSubs rest

end

mutual

/-- All expression subterms occurring in a statement, recursing into
`tryExcept` bodies. -/
def stmtSubExprs : Stmt → List Expr
  | .pyImport _ => []
  | .pyFromImport _ _ => []
  | .assign _ e => exprSubs e
  | .exprStmt e => exprSubs e
  | .tryExcept body handler => stmtListSubExprs body ++ stmtListSubExprs handler
  | .magic _ => []

def stmtListSubExprs : List Stmt → List Expr
  | [] => []
  | s :: rest => stmtSubExprs s ++ stmtListSubExprs rest

end

/-- All expression subterms of the whole notebook, in cell order. -/
def allExprs : List Expr := stmtListSubExprs notebook.flatten

/-- Does a cell contain an expression satisfying `p` (at any nesting depth)? -/
def cellHas (p : Expr → Bool) (c : Cell) : Bool := (stmtListSubExprs c).any p

/-- Indices of the code cells containing an expression satisfying `p`. -/
def cellsWith (p : Expr → Bool) : List Nat :=
  (notebook.enum.filter (fun ic => cellHas p ic.2)).map Prod.fst

/-- Indices of the code cells containing a top-level statement satisfying `p`. -/
def cellsWithStmt (p : Stmt → Bool) : List Nat :=
  (notebook.enum.filter (fun ic => ic.2.any p)).map Prod.fst

/-- Is `e` a call of the method `m` on the variable `o` (`o.m(...)`)? -/
def isMethodCall (o m : String) : Expr → Bool
  | .call (.dot (.ident o') m') _ _ => o' == o && m' == m
  | _ => false

/-- Is `e` a call of `dariah.core.m`? -/
def isDariahCoreCall (m : String) : Expr → Bool
  | .call (.dot (.dot (.ident "dariah") "core") m') _ _ => m' == m
  | _ => false

/-- Is `s` the statement `features = mfw + corpus.hapax`? -/
def isFeaturesAssign : Stmt → Bool
  | .assign t (.binop "+" (.ident "mfw") (.dot (.ident "corpus") "hapax")) =>
      t == "features"
  | _ => false

/-- Is `e` the literal natural number `n`? -/
def isNatLit (n : Nat) : Expr → Bool
  | .natLit m => m == n
  | _ => false

/-- Is `e` the literal string `s`? -/
def isStrLit (s : String) : Expr → Bool
  | .strLit t => t == s
  | _ => false

/-- Is `e` a binary-operator application? -/
def isBinop : Expr → Bool
  | .binop _ _ _ => true
  | _ => false

/-- Callees of every call in the notebook that receives an expression
satisfying `p` as an immediate argument (positional or keyword). -/
def calleesWithArg (p : Expr → Bool) : List Expr :=
  allExprs.filterMap (fun e =>
    match e with
    | .call f args kwargs =>
        if args.any p || kwargs.any (fun kv => p kv.2) then some f else none
    | _ => none)

/-- C1: the notebook's code cells, executed in order, perform exactly one
demonstration flow: `cophi.corpus` is called only in cell 2, the filter list
`features = mfw + corpus.hapax` is built only in cell 5 (with `corpus.mfw`
called only in cell 3), the matrix is built by `corpus.drop` only in cell 6,
`model.fit` is called only in cell 8, and the visualization (`dariah.core.Vis`
in cell 10, `vis.topic_document` in cell 11) comes last; the cell indices are
strictly increasing, so each step precedes the next. -/
theorem notebook_single_flow_in_order :
    cellsWith (isMethodCall "cophi" "corpus") = [2] ∧
    cellsWith (isMethodCall "corpus" "mfw") = [3] ∧
    cellsWithStmt isFeaturesAssign = [5] ∧
    cellsWith (isMethodCall "corpus" "drop") = [6] ∧
    cellsWith (isMethodCall "model" "fit") = [8] ∧
    cellsWith (isDariahCoreCall "Vis") = [10] ∧
    cellsWith (isMethodCall "vis" "topic_document") = [11] :=
  ⟨rfl, rfl, rfl, rfl, rfl, rfl, rfl⟩

/-- C2: each configuration value of the notebook — the stopword count `50`,
the topic count `10`, the iteration count `1000` and the mallet path string —
appears as the immediate argument of exactly one call, namely `corpus.mfw`
for `50` and `dariah.core.LDA` for the other three; the two configured calls
carry those literals verbatim in their argument lists; and the only binary
operator applied anywhere in the notebook is the list concatenation
`mfw + corpus.hapax`, whose operands are plain names, so no arithmetic or
other transformation stands between any configuration literal and the
library call receiving it. -/
theorem config_values_passed_verbatim :
    calleesWithArg (isNatLit 50) = [Expr.dot (Expr.ident "corpus") "mfw"] ∧
    calleesWithArg (isNatLit 10) =
      [Expr.dot (Expr.dot (Expr.ident "dariah") "core") "LDA"] ∧
    calleesWithArg (isNatLit 1000) =
      [Expr.dot (Expr.dot (Expr.ident "dariah") "core") "LDA"] ∧
    calleesWithArg (isStrLit malletPathStr) =
      [Expr.dot (Expr.dot (Expr.ident "dariah") "core") "LDA"] ∧
    allExprs.filter (isMethodCall "corpus" "mfw") =
      [Expr.call (Expr.dot (Expr.ident "corpus") "mfw") [Expr.natLit 50] []] ∧
    allExprs.filter (isDariahCoreCall "LDA") =
      [Expr.call (Expr.dot (Expr.dot (Expr.ident "dariah") "core") "LDA") []
        [("num_topics", Expr.natLit 10), ("num_iterations", Expr.natLit 1000),
         ("mallet", Expr.strLit malletPathStr)]] ∧
    allExprs.filter isBinop =
      [Expr.binop "+" (Expr.ident "mfw") (Expr.dot (Expr.ident "corpus") "hapax")] :=
  ⟨rfl, rfl, rfl, rfl, rfl, rfl, rfl⟩

/-- Is `e` a string literal? -/
def isAnyStrLit : Expr → Bool
  | .strLit _ => true
  | _ => false

/-- Is `e` a call of the bare name `f` (`f(...)`)? -/
def isNameCall (f : String) : Expr → Bool
  | .call (.ident f') _ _ => f' == f
  | _ => false

/-- Does `e` refer (as a bare name or as an attribute name) to one of the
names in `bad`? -/
def usesName (bad : List String) : Expr → Bool
  | .dot _ f => bad.contains f
  | .ident x => bad.contains x
  | _ => false

/-- Python primitives for file, URL and environment access.  None of them may
appear in the notebook's own code. -/
def ioPrimitiveNames : List String :=
  ["open", "read", "write", "readline", "readlines", "close",
   "read_csv", "to_csv", "read_json", "to_json", "save", "load",
   "environ", "getenv", "putenv", "setenv", "urlopen", "urlretrieve",
   "request", "get", "post"]

/-- Python primitives for spawning or controlling an external process.  None
of them may appear in the notebook's own code. -/
def processPrimitiveNames : List String :=
  ["subprocess", "os", "Popen", "system", "popen", "fork", "forkpty",
   "spawnv", "spawnl", "spawnve", "execv", "execl", "execve",
   "check_output", "check_call", "run", "getoutput", "getstatusoutput"]

/-- Python primitives creating threads, processes, coroutines or async
tasks.  None of them may appear in the notebook's own code. -/
def concurrencyPrimitiveNames : List String :=
  ["threading", "Thread", "asyncio", "concurrent", "multiprocessing",
   "Process", "Pool", "ThreadPoolExecutor", "ProcessPoolExecutor",
   "create_task", "ensure_future", "run_until_complete", "gather",
   "new_event_loop", "get_event_loop", "start_new_thread"]

/-- C5: the only string literals in the notebook are the two components of
the corpus directory path, the tokenization regex handed to `cophi.corpus`,
and the mallet executable path; the corpus path is built by the single
`Path("data", "british-fiction-corpus")` call, whose result `directory` is
the argument of the single `cophi.corpus` call; and no file-, URL- or
environment-access primitive is referenced anywhere in the notebook's own
code. -/
theorem only_declared_external_resources :
    allExprs.filter isAnyStrLit =
      [Expr.strLit "data", Expr.strLit "british-fiction-corpus",
       Expr.strLit tokenPatternStr, Expr.strLit malletPathStr] ∧
    allExprs.filter (isNameCall "Path") =
      [Expr.call (Expr.ident "Path")
        [Expr.strLit "data", Expr.strLit "british-fiction-corpus"] []] ∧
    allExprs.filter (isMethodCall "cophi" "corpus") =
      [Expr.call (Expr.dot (Expr.ident "cophi") "corpus")
        [Expr.ident "directory"]
        [("lowercase", Expr.boolLit true),
         ("token_pattern", Expr.strLit tokenPatternStr),
         ("metadata", Expr.boolLit false)]] ∧
    allExprs.all (fun e => !usesName ioPrimitiveNames e) = true :=
  ⟨rfl, rfl, rfl, rfl⟩

/-- C6: the notebook's own code never spawns a process: no reference to
`subprocess`, `os.system`, `Popen`, `fork`, `exec*`/`spawn*` or any similar
primitive occurs anywhere in its cells; its only contact with the MALLET
sampler is handing the mallet path string to the `dariah.core.LDA` call. -/
theorem no_direct_process_spawn :
    allExprs.all (fun e => !usesName processPrimitiveNames e) = true ∧
    calleesWithArg (isStrLit malletPathStr) =
      [Expr.dot (Expr.dot (Expr.ident "dariah") "core") "LDA"] :=
  ⟨rfl, rfl⟩

/-- C7: no cell of the notebook creates a thread, coroutine, async task or
any other concurrent execution context: no reference to `threading`,
`asyncio`, `multiprocessing`, `concurrent` or any similar primitive occurs
anywhere in the notebook's own code. -/
theorem no_concurrency_constructs :
    allExprs.all (fun e => !usesName concurrencyPrimitiveNames e) = true :=
  rfl

/-! ## Semantic embedding: execution with a failing library oracle

Every foreign operation the notebook performs — a call, an attribute access,
an operator application, a subscription — is delegated to an oracle that may
answer with a value or raise an error.  The notebook's own code contributes
only name binding and sequencing, so any error the run produces must be an
error the oracle produced. -/

/-- Runtime values.  Library-produced objects are opaque (`vext`); the
notebook itself only ever constructs literals and receives oracle answers. -/
inductive Value where
  | vnone : Value
  | vbool : Bool → Value
  | vnat : Nat → Value
  | vstr : String → Value
  | vbuiltin : String → Value
  | vmodule : String → Value
  | vext : Nat → Value

/-- A query to the external world: the four foreign operations the notebook
performs. -/
inductive Query where
  | qcall : Value → List Value → List (String × Value) → Query
  | qattr : Value → String → Query
  | qbinop : String → Value → Value → Query
  | qsub : Value → List Value → Query

/-- A variable environment. -/
abbrev Env := List (String × Value)

/-- The external world: answers every foreign operation, possibly with an
error (a raised exception). -/
abbrev Oracle := Query → Except String Value

/-- Environment lookup; total (an unbound name reads as `None`). -/
def lookupEnv : Env → String → Value
  | [], _ => Value.vnone
  | (k, v) :: t, x => if k == x then v else lookupEnv t x

/-- Plain-text rendering of a value, used for f-string interpolation (which
never raises). -/
def formatValue : Value → String
  | Value.vstr s => s
  | Value.vnat n => toString n
  | Value.vbool b => toString b
  | _ => ""

mutual

/-- Fuel-indexed expression evaluation.  Exhausted fuel yields `None` rather
than an error, so the only source of errors is the oracle. -/
def evalE (O : Oracle) : Nat → Env → Expr → Except String Value
  | 0, _, _ => .ok Value.vnone
  | n + 1, env, ex =>
    match ex with
    | .strLit s => .ok (Value.vstr s)
    | .natLit k => .ok (Value.vnat k)
    | .boolLit b => .ok (Value.vbool b)
    | .ident x => .ok (lookupEnv env x)
    | .dot e f =>
      match evalE O n env e with
      | .error err => .error err
      | .ok v => O (Query.qattr v f)
    | .binop op a b =>
      match evalE O n env a with
      | .error err => .error err
      | .ok va =>
        match evalE O n env b with
        | .error err => .error err
        | .ok vb => O (Query.qbinop op va vb)
    | .subscript e idx =>
      match evalE O n env e with
      | .error err => .error err
      | .ok v =>
        match evalL O n env idx with
        | .error err => .error err
        | .ok vs => O (Query.qsub v vs)
    | .call f args kwargs =>
      match evalE O n env f with
      | .error err => .error err
      | .ok vf =>
        match evalL O n env args with
        | .error err => .error err
        | .ok va =>
          match evalKw O n env kwargs with
          | .error err => .error err
          | .ok vk => O (Query.qcall vf va vk)
    | .fstring parts =>
      match evalParts O n env parts with
      | .error err => .error err
      | .ok vs => .ok (Value.vstr (String.join (vs.map formatValue)))

/-- Evaluation of a positional-argument list. -/
def evalL (O : Oracle) : Nat → Env → List Expr → Except String (List Value)
  | 0, _, _ => .ok []
  | _ + 1, _, [] => .ok []
  | n + 1, env, e :: rest =>
    match evalE O n env e with
    | .error err => .error err
    | .ok v =>
      match evalL O n env rest with
      | .error err => .error err
      | .ok vs => .ok (v :: vs)

/-- Evaluation of a keyword-argument list. -/
def evalKw (O : Oracle) :
    Nat → Env → List (String × Expr) → Except String (List (String × Value))
  | 0, _, _ => .ok []
  | _ + 1, _, [] => .ok []
  | n + 1, env, kv :: rest =>
    match evalE O n env kv.2 with
    | .error err => .error err
    | .ok v =>
      match evalKw O n env rest with
      | .error err => .error err
      | .ok vs => .ok ((kv.1, v) :: vs)

/-- Evaluation of the parts of an f-string. -/
def evalParts (O : Oracle) : Nat → Env → List FPart → Except String (List Value)
  | 0, _, _ => .ok []
  | _ + 1, _, [] => .ok []
  | n + 1, env, FPart.text t :: rest =>
    match evalParts O n env rest with
    | .error err => .error err
    | .ok vs => .ok (Value.vstr t :: vs)
  | n + 1, env, FPart.fexpr e :: rest =>
    match evalE O n env e with
    | .error err => .error err
    | .ok v =>
      match evalParts O n env rest with
      | .error err => .error err
      | .ok vs => .ok (v :: vs)

end

/-- Fuel-indexed execution of a statement sequence.  `tryExcept` is given
Python's semantics (run the handler when the body raises); the notebook
contains no such statement, which `library_errors_propagate_unchanged`
records. -/
def execSeq (O : Oracle) : Nat → Env → List Stmt → Except String Env
  | _, env, [] => .ok env
  | 0, env, _ :: _ => .ok env
  | n + 1, env, s :: rest =>
    match s with
    | .pyImport m => execSeq O n ((m, Value.vmodule m) :: env) rest
    | .pyFromImport _ names =>
        execSeq O n (names.map (fun x => (x, Value.vbuiltin x)) ++ env) rest
    | .assign x e =>
      match evalE O n env e with
      | .error err => .error err
      | .ok v => execSeq O n ((x, v) :: env) rest
    | .exprStmt e =>
      match evalE O n env e with
      | .error err => .error err
      | .ok _ => execSeq O n env rest
    | .magic _ => execSeq O n env rest
    | .tryExcept body handler =>
      match execSeq O n env body with
      | .ok env' => execSeq O n env' rest
      | .error _ =>
        match execSeq O n env handler with
        | .ok env' => execSeq O n env' rest
        | .error err => .error err

/-- The bindings available before the first cell runs (Python builtins the
notebook uses). -/
def initialEnv : Env :=
  [("print", Value.vbuiltin "print"), ("len", Value.vbuiltin "len"),
   ("int", Value.vbuiltin "int")]

/-- Fuel amply covering the notebook's 20 statements and expression depths. -/
def notebookFuel : Nat := 64

/-- Run the notebook's code cells in order against a library oracle. -/
def runNotebook (O : Oracle) : Except String Env :=
  execSeq O notebookFuel initialEnv notebook.flatten

/-- Is the statement a `try`/`except` handler? -/
def Stmt.isTryExcept : Stmt → Bool
  | Stmt.tryExcept _ _ => true
  | _ => false

/-- Every error produced by expression evaluation is an error the oracle
produced: the notebook's expression layer raises nothing of its own. -/
theorem evalAux_error_from_oracle (O : Oracle) :
    ∀ n : Nat,
      (∀ env ex err, evalE O n env ex = .error err → ∃ q, O q = .error err) ∧
      (∀ env l err, evalL O n env l = .error err → ∃ q, O q = .error err) ∧
      (∀ env kvs err, evalKw O n env kvs = .error err → ∃ q, O q = .error err) ∧
      (∀ env ps err, evalParts O n env ps = .error err → ∃ q, O q = .error err) := by
  intro n
  induction n with
  | zero =>
    refine ⟨?_, ?_, ?_, ?_⟩ <;> intro env x err h <;>
      simp [evalE, evalL, evalKw, evalParts] at h
  | succ n ih =>
    obtain ⟨ihE, ihL, ihK, ihP⟩ := ih
    refine ⟨?_, ?_, ?_, ?_⟩
    · intro env ex err h
      cases ex with
      | strLit s => simp [evalE] at h
      | natLit k => simp [evalE] at h
      | boolLit b => simp [evalE] at h
      | ident x => simp [evalE] at h
      | dot e f =>
        simp only [evalE] at h
        rcases hE : evalE O n env e with err' | v <;> simp [hE] at h
        · subst h; exact ihE _ _ _ hE
        · exact ⟨_, h⟩
      | binop op a b =>
        simp only [evalE] at h
        rcases hA : evalE O n env a with err' | va <;> simp [hA] at h
        · subst h; exact ihE _ _ _ hA
        · rcases hB : evalE O n env b with err' | vb <;> simp [hB] at h
          · subst h; exact ihE _ _ _ hB
          · exact ⟨_, h⟩
      | subscript e idx =>
        simp only [evalE] at h
        rcases hE : evalE O n env e with err' | v <;> simp [hE] at h
        · subst h; exact ihE _ _ _ hE
        · rcases hL : evalL O n env idx with err' | vs <;> simp [hL] at h
          · subst h; exact ihL _ _ _ hL
          · exact ⟨_, h⟩
      | call f args kwargs =>
        simp only [evalE] at h
        rcases hF : evalE O n env f with err' | vf <;> simp [hF] at h
        · subst h; exact ihE _ _ _ hF
        · rcases hA : evalL O n env args with err' | va <;> simp [hA] at h
          · subst h; exact ihL _ _ _ hA
          · rcases hK : evalKw O n env kwargs with err' | vk <;> simp [hK] at h
            · subst h; exact ihK _ _ _ hK
            · exact ⟨_, h⟩
      | fstring parts =>
        simp only [evalE] at h
        rcases hP : evalParts O n env parts with err' | vs <;> simp [hP] at h
        subst h; exact ihP _ _ _ hP
    · intro env l err h
      cases l with
      | nil => simp [evalL] at h
      | cons e rest =>
        simp only [evalL] at h
        rcases hE : evalE O n env e with err' | v <;> simp [hE] at h
        · subst h; exact ihE _ _ _ hE
        · rcases hR : evalL O n env rest with err' | vs <;> simp [hR] at h
          subst h; exact ihL _ _ _ hR
    · intro env kvs err h
      cases kvs with
      | nil => simp [evalKw] at h
      | cons kv rest =>
        simp only [evalKw] at h
        rcases hE : evalE O n env kv.2 with err' | v <;> simp [hE] at h
        · subst h; exact ihE _ _ _ hE
        · rcases hR : evalKw O n env rest with err' | vs <;> simp [hR] at h
          subst h; exact ihK _ _ _ hR
    · intro env ps err h
      cases ps with
      | nil => simp [evalParts] at h
      | cons p rest =>
        cases p with
        | text t =>
          simp only [evalParts] at h
          rcases hR : evalParts O n env rest with err' | vs <;> simp [hR] at h
          subst h; exact ihP _ _ _ hR
        | fexpr e =>
          simp only [evalParts] at h
          rcases hE : evalE O n env e with err' | v <;> simp [hE] at h
          · subst h; exact ihE _ _ _ hE
          · rcases hR : evalParts O n env rest with err' | vs <;> simp [hR] at h
            subst h; exact ihP _ _ _ hR

/-- Every error produced by statement execution is an error the oracle
produced: the notebook's statement layer neither raises nor rewrites
errors. -/
theorem execSeq_error_from_oracle (O : Oracle) :
    ∀ n env stmts err, execSeq O n env stmts = .error err →
      ∃ q, O q = .error err := by
  intro n
  induction n with
  | zero =>
    intro env stmts err h
    cases stmts <;> simp [execSeq] at h
  | succ n ih =>
    intro env stmts err h
    cases stmts with
    | nil => simp [execSeq] at h
    | cons s rest =>
      cases s with
      | pyImport m =>
        simp only [execSeq] at h
        exact ih _ _ _ h
      | pyFromImport m names =>
        simp only [execSeq] at h
        exact ih _ _ _ h
      | assign x e =>
        simp only [execSeq] at h
        rcases hE : evalE O n env e with err' | v <;> simp [hE] at h
        · subst h; exact (evalAux_error_from_oracle O n).1 _ _ _ hE
        · exact ih _ _ _ h
      | exprStmt e =>
        simp only [execSeq] at h
        rcases hE : evalE O n env e with err' | v <;> simp [hE] at h
        · subst h; exact (evalAux_error_from_oracle O n).1 _ _ _ hE
        · exact ih _ _ _ h
      | magic s =>
        simp only [execSeq] at h
        exact ih _ _ _ h
      | tryExcept body handler =>
        simp only [execSeq] at h
        rcases hB : execSeq O n env body with err' | env' <;> simp [hB] at h
        · rcases hH : execSeq O n env handler with err'' | env'' <;>
            simp [hH] at h
          · subst h; exact ih _ _ _ hH
          · exact ih _ _ _ h
        · exact ih _ _ _ h

/-- C3: the notebook propagates library exceptions unchanged: whenever a run
of the notebook against any library oracle halts with an error, that error
is literally an answer the oracle gave to one of the notebook's foreign
calls, and no statement of the notebook is a try/except handler (nor any
other error-handling construct: the statement layer only binds names and
sequences cells). -/
theorem library_errors_propagate_unchanged (O : Oracle) (err : String)
    (h : runNotebook O = Except.error err) :
    (∃ q, O q = Except.error err) ∧
      notebook.flatten.all (fun s => !s.isTryExcept) = true :=
  ⟨execSeq_error_from_oracle O notebookFuel initialEnv notebook.flatten err h,
   rfl⟩

/-- An oracle on which every library call raises. -/
def oracleBoom : Oracle := fun _ => Except.error "boom"

/-- Witness for `library_errors_propagate_unchanged`: with an oracle whose
every call raises `"boom"`, the run halts with exactly that error, and the
theorem yields its conclusion at that concrete input. -/
theorem library_errors_propagate_unchanged_witness :
    (∃ q, oracleBoom q = Except.error "boom") ∧
      notebook.flatten.all (fun s => !s.isTryExcept) = true :=
  library_errors_propagate_unchanged oracleBoom "boom" rfl

/-! ## Data-flow model: the corpus operations the notebook composes

The notebook pipes library-produced data through `corpus.mfw`,
`corpus.hapax`, `corpus.dtm`, `corpus.drop`, `.fillna(0)` and
`.astype(int)`.  These operations live in the external `cophi` and `pandas`
libraries; they are modelled here from those libraries' documented
behaviour so that the claims about the filtered document-term matrix can be
stated and settled. -/

/-- A corpus as `cophi.corpus` produces it: named documents, each a list of
tokens. -/
abbrev Corpus := List (String × List String)

/-- Total number of occurrences of the word `w` in the corpus. -/
def countOf (c : Corpus) (w : String) : Nat :=
  (c.map (fun d => d.2.count w)).sum

/-- The word types of the corpus (each type once, in order of first
appearance). -/
def corpusTypes (c : Corpus) : List String :=
  (c.flatMap (fun d => d.2)).dedup

/-- Model of `cophi` `Corpus.hapax`: the word types occurring exactly once
in the corpus. -/
def hapax (c : Corpus) : List String :=
  (corpusTypes c).filter (fun w => countOf c w == 1)

/-- Insert a word into a list kept in descending order of `key`. -/
def insertDesc (key : String → Nat) (w : String) : List String → List String
  | [] => [w]
  | x :: xs => if key x < key w then w :: x :: xs else x :: insertDesc key w xs

/-- Sort words by descending `key`. -/
def sortDesc (key : String → Nat) : List String → List String
  | [] => []
  | x :: xs => insertDesc key x (sortDesc key xs)

/-- Model of `cophi` `Corpus.mfw n`: the `n` most frequent word types. -/
def mfw (c : Corpus) (n : Nat) : List String :=
  (sortDesc (countOf c) (corpusTypes c)).take n

/-- A labelled data frame, as pandas hands it between the library calls of
cell 6. -/
structure DF (α : Type) where
  rowLabels : List String
  colLabels : List String
  entries : List (List α)

/-- Model of `cophi` `Corpus.dtm`: one row per document, one column per word
type; a cell holds the document's count of the word as a (pandas float)
number, with absence recorded as a missing value (`NaN`). -/
def corpusDtm (c : Corpus) : DF (Option ℚ) :=
  ⟨c.map Prod.fst, corpusTypes c,
   c.map (fun d =>
     (corpusTypes c).map (fun w =>
       if d.2.count w == 0 then none else some ((d.2.count w : ℚ))))⟩

/-- Model of `cophi` `Corpus.drop(dtm, features)`: remove every column whose
label is among `features`; the rows are untouched. -/
def dropCols {α : Type} (df : DF α) (features : List String) : DF α :=
  ⟨df.rowLabels,
   df.colLabels.filter (fun l => !features.contains l),
   df.entries.map (fun row =>
     ((df.colLabels.zip row).filter (fun p => !features.contains p.1)).map
       Prod.snd)⟩

/-- Model of pandas `DataFrame.fillna(v)`: replace missing values by `v`. -/
def dfFillna {α : Type} (df : DF (Option α)) (v : α) : DF α :=
  ⟨df.rowLabels, df.colLabels,
   df.entries.map (fun row => row.map (fun x => x.getD v))⟩

/-- Truncation toward zero, as numpy's cast to `int` performs it. -/
def ratToInt (q : ℚ) : ℤ := q.num.tdiv ((q.den : ℤ))

/-- Model of pandas `DataFrame.astype(int)`. -/
def dfAstypeInt (df : DF ℚ) : DF ℤ :=
  ⟨df.rowLabels, df.colLabels,
   df.entries.map (fun row => row.map ratToInt)⟩

/-- The filter list the notebook builds in cell 5:
`features = mfw + corpus.hapax`. -/
def notebookFeatures (c : Corpus) : List String := mfw c 50 ++ hapax c

/-- The matrix pipeline of cell 6:
`corpus.drop(corpus.dtm, features).fillna(0).astype(int)`. -/
def notebookDtmPipeline (df : DF (Option ℚ)) (features : List String) : DF ℤ :=
  dfAstypeInt (dfFillna (dropCols df features) 0)

/-- The filtered document-term matrix bound to `dtm` in cell 6. -/
def notebookFilteredDtm (c : Corpus) : DF ℤ :=
  notebookDtmPipeline (corpusDtm c) (notebookFeatures c)

/-- A word occurring somewhere in the corpus is one of its types. -/
theorem mem_corpusTypes_of_countOf_ne_zero (c : Corpus) (w : String)
    (h : countOf c w ≠ 0) : w ∈ corpusTypes c := by
  have hne : ¬ ∀ x ∈ c.map (fun d => d.2.count w), x = 0 := by
    intro hall
    exact h (List.sum_eq_zero hall)
  push_neg at hne
  obtain ⟨x, hxmem, hxne⟩ := hne
  obtain ⟨d, hd, hdx⟩ := List.mem_map.mp hxmem
  have hwd : w ∈ d.2 := by
    by_contra hnot
    exact hxne (hdx ▸ List.count_eq_zero.mpr hnot)
  exact List.mem_dedup.mpr (List.mem_flatMap.mpr ⟨d, hd, hwd⟩)

/-- C4: every hapax legomenon is included in the feature list built in cell
5, so the matrix produced by the drop step of cell 6 has no column for any
word that occurs exactly once in the corpus. -/
theorem hapax_types_have_no_column (c : Corpus) (w : String)
    (h : countOf c w = 1) :
    w ∈ notebookFeatures c ∧ w ∉ (notebookFilteredDtm c).colLabels := by
  have hwt : w ∈ corpusTypes c :=
    mem_corpusTypes_of_countOf_ne_zero c w (by rw [h]; exact one_ne_zero)
  have hw : w ∈ notebookFeatures c :=
    List.mem_append_right _ (List.mem_filter.mpr ⟨hwt, by simp [h]⟩)
  refine ⟨hw, ?_⟩
  intro hmem
  have hcols :
      (notebookFilteredDtm c).colLabels =
        (corpusTypes c).filter (fun l => !(notebookFeatures c).contains l) := rfl
  rw [hcols] at hmem
  have h2 := (List.mem_filter.mp hmem).2
  simp at h2
  exact h2 hw

/-- The corpus used to instantiate `hapax_types_have_no_column`: `"a"`
occurs once, `"b"` twice. -/
def hapaxWitnessCorpus : Corpus := [("d", ["a", "b", "b"])]

/-- Witness for `hapax_types_have_no_column` at the concrete corpus
`hapaxWitnessCorpus` and the hapax word `"a"`. -/
theorem hapax_types_have_no_column_witness :
    countOf hapaxWitnessCorpus "a" = 1 ∧
      ("a" ∈ notebookFeatures hapaxWitnessCorpus ∧
        "a" ∉ (notebookFilteredDtm hapaxWitnessCorpus).colLabels) :=
  ⟨by decide, hapax_types_have_no_column hapaxWitnessCorpus "a" (by decide)⟩

/-- Truncation toward zero sends non-negative rationals to non-negative
integers. -/
theorem ratToInt_nonneg (q : ℚ) (h : 0 ≤ q) : 0 ≤ ratToInt q :=
  Int.tdiv_nonneg (Rat.num_nonneg.mpr h) (Int.natCast_nonneg _)

/-- C8: the matrix handed to `model.fit` in cell 8 has no missing values
and only non-negative integer entries: whenever every cell of the
library-produced matrix is either missing or a non-negative integer count,
every entry of `corpus.drop(dtm, features).fillna(0).astype(int)` is a
non-negative integer (the result's entry type is `ℤ`, so missing values and
non-integer values are gone by construction, and non-negativity is
proved). -/
theorem filtered_dtm_entries_nonneg (df : DF (Option ℚ)) (features : List String)
    (h : ∀ row ∈ df.entries, ∀ cell ∈ row,
        cell = none ∨ ∃ k : ℕ, cell = some ((k : ℚ))) :
    ∀ row ∈ (notebookDtmPipeline df features).entries, ∀ x ∈ row, 0 ≤ x := by
  intro row hrow x hx
  simp only [notebookDtmPipeline, dfAstypeInt, dfFillna, dropCols] at hrow
  obtain ⟨r2, hr2, rfl⟩ := List.mem_map.mp hrow
  obtain ⟨r1, hr1, rfl⟩ := List.mem_map.mp hr2
  obtain ⟨r0, hr0, rfl⟩ := List.mem_map.mp hr1
  obtain ⟨q, hq, rfl⟩ := List.mem_map.mp hx
  obtain ⟨cell, hcell, rfl⟩ := List.mem_map.mp hq
  obtain ⟨p, hp, rfl⟩ := List.mem_map.mp hcell
  obtain ⟨pa, pb⟩ := p
  have hpz := (List.mem_filter.mp hp).1
  have hmem : pb ∈ r0 := (List.of_mem_zip hpz).2
  rcases h r0 hr0 pb hmem with hnone | ⟨k, hk⟩
  · rw [hnone]
    exact ratToInt_nonneg _ le_rfl
  · rw [hk]
    simp only [Option.getD_some]
    exact ratToInt_nonneg _ (Nat.cast_nonneg k)

/-- A concrete matrix with one missing cell and one count cell. -/
def dfW : DF (Option ℚ) := ⟨["d"], ["x", "y"], [[none, some ((3 : ℚ))]]⟩

/-- Witness for `filtered_dtm_entries_nonneg` at the concrete matrix `dfW`
with the feature list `["x"]`. -/
theorem filtered_dtm_entries_nonneg_witness :
    (∀ row ∈ dfW.entries, ∀ cell ∈ row,
        cell = none ∨ ∃ k : ℕ, cell = some ((k : ℚ))) ∧
      (∀ row ∈ (notebookDtmPipeline dfW ["x"]).entries, ∀ x ∈ row, 0 ≤ x) := by
  have h : ∀ row ∈ dfW.entries, ∀ cell ∈ row,
      cell = none ∨ ∃ k : ℕ, cell = some ((k : ℚ)) := by
    intro row hr cell hc
    simp only [dfW, List.mem_singleton] at hr
    subst hr
    rcases hc with _ | ⟨_, hc⟩
    · exact Or.inl rfl
    · rcases hc with _ | ⟨_, hc⟩
      · exact Or.inr ⟨3, by norm_num⟩
      · cases hc
  exact ⟨h, filtered_dtm_entries_nonneg dfW ["x"] h⟩

/-- A corpus on which the 50 most frequent words and the hapax list
overlap: its single word is both. -/
def overlapCorpus : Corpus := [("d", ["a"])]

/-- C9: the count the notebook prints in cell 5 is the length of the plain
concatenation `mfw + corpus.hapax`, i.e. `len(mfw) + len(hapax)`, with no
deduplication; on `overlapCorpus`, whose single word is both a most
frequent word and a hapax, that count is 2 while only 1 distinct type is
dropped. -/
theorem printed_count_is_sum_of_list_lengths :
    (∀ c : Corpus,
        (notebookFeatures c).length = (mfw c 50).length + (hapax c).length) ∧
      (notebookFeatures overlapCorpus).length = 2 ∧
      ((notebookFeatures overlapCorpus).dedup).length = 1 :=
  ⟨fun _ => List.length_append _ _, by decide, by decide⟩

/-- C10: vocabulary filtering changes only the columns: for every corpus,
the filtered matrix of cell 6 carries exactly the document row labels of
the library-produced `corpus.dtm`, in the same order, and one entry row per
original entry row. -/
theorem drop_changes_only_columns (c : Corpus) :
    (notebookFilteredDtm c).rowLabels = (corpusDtm c).rowLabels ∧
      (notebookFilteredDtm c).entries.length = (corpusDtm c).entries.length := by
  refine ⟨rfl, ?_⟩
  simp [notebookFilteredDtm, notebookDtmPipeline, dfAstypeInt, dfFillna,
    dropCols]

end Topics

